/-
Verification of the rgbfusion RGB-controller packet encoders.

Shallow embedding of the repository's Rust sources:
  * src/gigabyte_trx40_aorus_master.rs  (the "Aorus"/Gigabyte encoder, encoder B)
  * src/asus_strix_x670e_f.rs           (the "Aura"/ASUS encoder, encoder A)
  * src/main.rs                         (older standalone tool: Config::as_bytes,
                                         apply_packet, write_config orchestrator)

Machine integers are modelled as `Fin 256` (u8) and `Fin 65536` (u16) where they
are inputs, and as `Nat` with explicit `% 2^w` at the points where the Rust code
performs wrapping arithmetic or casts.  A `Bytes` buffer is a `List Nat` whose
entries are byte values.  Fallible Rust functions returning
`Result<_, Box<dyn Error>>` become `Except String _`, the error being the string
the Rust code builds with `format!`.
-/
import Mathlib

set_option linter.unusedVariables false

/-- RGB color: three independent 8-bit channels (src/main.rs `struct Rgb`). -/
structure Rgb where
  r : Fin 256
  g : Fin 256
  b : Fin 256
  deriving DecidableEq

/-- Lighting effect of the encoder layer (the eight-variant `Effect` enum used by
the encoder modules via `crate::Effect`). -/
inductive Effect where
  | Off
  | Static
  | Pulse
  | Flash
  | Cycle
  | Rainbow
  | ChaseFade
  | Chase
  deriving DecidableEq

/-- Rust `Debug` formatting of `Effect` (used in `format!("unsupported effect: {effect:?}")`). -/
def Effect.debugStr : Effect → String
  | .Off => "Off"
  | .Static => "Static"
  | .Pulse => "Pulse"
  | .Flash => "Flash"
  | .Cycle => "Cycle"
  | .Rainbow => "Rainbow"
  | .ChaseFade => "ChaseFade"
  | .Chase => "Chase"

/-- RGB zone of the encoder layer (the six-variant `Zone` enum used by the
encoder modules via `crate::Zone`). -/
inductive Zone where
  | Io
  | Cpu
  | Audio
  | Chipset
  | Header0
  | Header1
  deriving DecidableEq

/-- Rust `Debug` formatting of `Zone` (used in `format!("unsupported zone: {zone:?}")`). -/
def Zone.debugStr : Zone → String
  | .Io => "Io"
  | .Cpu => "Cpu"
  | .Audio => "Audio"
  | .Chipset => "Chipset"
  | .Header0 => "Header0"
  | .Header1 => "Header1"

/-- Lighting configuration consumed by the encoders (`crate::Config`):
zone, effect, max/min brightness (u8), color, and three durations in
milliseconds (u16). -/
structure Config where
  zone : Zone
  effect : Effect
  max_brightness : Fin 256
  min_brightness : Fin 256
  color : Rgb
  fade_in_time : Fin 65536
  fade_out_time : Fin 65536
  hold_time : Fin 65536
  deriving DecidableEq

namespace GigabyteTrx40AorusMaster

/-- `duration_bytes` (src/gigabyte_trx40_aorus_master.rs:75-82): divide the
millisecond duration by 250 (quarter seconds) and emit the u16 result
big-endian via `put_u16`. -/
def duration_bytes (duration : Fin 65536) : List Nat :=
  [duration.val / 250 / 256 % 256, duration.val / 250 % 256]

/-- `brightness_bytes` (src/gigabyte_trx40_aorus_master.rs:85-89):
`(0x5a * brightness.0 as u16 / u8::max_value() as u16) as u8`, i.e. u16
multiplication and division followed by a cast to u8. -/
def brightness_bytes (brightness : Fin 256) : List Nat :=
  [0x5a * brightness.val % 65536 / 255 % 256]

/-- `effect_bytes` (src/gigabyte_trx40_aorus_master.rs:92-101): effects 0-4 are
supported, everything else is an error. -/
def effect_bytes (effect : Effect) : Except String Nat :=
  match effect with
  | .Off => .ok 0
  | .Static => .ok 1
  | .Pulse => .ok 2
  | .Flash => .ok 3
  | .Cycle => .ok 4
  | effect => .error ("unsupported effect: " ++ effect.debugStr)

/-- `zone_bytes` (src/gigabyte_trx40_aorus_master.rs:104-113). -/
def zone_bytes (zone : Zone) : Nat :=
  match zone with
  | .Io => 0x2001
  | .Cpu => 0x2102
  | .Audio => 0x2308
  | .Chipset => 0x2410
  | .Header0 => 0x2520
  | .Header1 => 0x2640

/-- `config_bytes` (src/gigabyte_trx40_aorus_master.rs:21-71): one buffer is
built field by field — report ID, big-endian zone, 8 zero bytes, effect byte,
max/min brightness, primary color in B,G,R order, padding, secondary color
slot, padding, three durations, padding — and the apply bytes
`0xcc 0x28 0xff` plus 20 zeros are appended to that same buffer; the function
returns a vector containing that single frozen buffer. -/
def config_bytes (config : Config) : Except String (List (List Nat)) := do
  let effect ← effect_bytes config.effect
  let zone := zone_bytes config.zone
  let buf : List Nat :=
    [0xcc]
    ++ [zone / 256 % 256, zone % 256]
    ++ List.replicate 8 0
    ++ [effect]
    ++ brightness_bytes config.max_brightness
    ++ brightness_bytes config.min_brightness
    ++ [config.color.b.val, config.color.g.val, config.color.r.val]
    ++ [0]
    ++ List.replicate 3 0
    ++ [0]
    ++ duration_bytes config.fade_in_time
    ++ duration_bytes config.fade_out_time
    ++ duration_bytes config.hold_time
    ++ List.replicate 3 0
    ++ ([0xcc, 0x28, 0xff] ++ List.replicate 20 0)
  pure [buf]

end GigabyteTrx40AorusMaster

namespace AsusRogStrixX670EF

/-- `IO_MASK` (src/asus_strix_x670e_f.rs:10). -/
def ioMask : Nat := 0x04 ||| 0x02 ||| 0x01

/-- `CPU_MASK` (src/asus_strix_x670e_f.rs:11). -/
def cpuMask : Nat := 0x20

/-- `GPU_MASK` (src/asus_strix_x670e_f.rs:12). -/
def gpuMask : Nat := 0x40

/-- `effect_bytes` (src/asus_strix_x670e_f.rs:43-54): total over all eight
effects; note ChaseFade maps to 7 and Chase to 9. -/
def effect_bytes (effect : Effect) : Nat :=
  match effect with
  | .Off => 0
  | .Static => 1
  | .Pulse => 2
  | .Flash => 3
  | .Cycle => 4
  | .Rainbow => 5
  | .ChaseFade => 7
  | .Chase => 9

/-- `zone_bytes` (src/asus_strix_x670e_f.rs:57-63): only Io and Header0 are
supported. -/
def zone_bytes (zone : Zone) : Except String Nat :=
  match zone with
  | .Io => .ok 0x00
  | .Header0 => .ok 0x01
  | zone => .error ("unsupported zone: " ++ zone.debugStr)

/-- `zone_mask` (src/asus_strix_x670e_f.rs:66-72). -/
def zone_mask (zone : Zone) : Except String Nat :=
  match zone with
  | .Io => .ok ioMask
  | .Header0 => .ok (cpuMask ||| gpuMask)
  | zone => .error ("unsupported zone: " ++ zone.debugStr)

/-- `color_bytes` (src/asus_strix_x670e_f.rs:75-103): header with LED mask,
the R,G,B triple three times for the motherboard zones, 6 zero bytes,
then the triple again for CPU and for GPU. -/
def color_bytes (zone : Zone) (color : Rgb) : Except String (List Nat) := do
  let mask ← zone_mask zone
  pure ([0xec, 0x36, 0x00, mask, 0x00]
    ++ [color.r.val, color.g.val, color.b.val]
    ++ [color.r.val, color.g.val, color.b.val]
    ++ [color.r.val, color.g.val, color.b.val]
    ++ List.replicate 6 0
    ++ [color.r.val, color.g.val, color.b.val]
    ++ [color.r.val, color.g.val, color.b.val])

/-- `config_bytes` (src/asus_strix_x670e_f.rs:25-39): three packets —
effect packet `[0xec, 0x35, zone, 0x00, 0x00, effect]`, color packet,
commit packet `[0xec, 0x3f, 0x55]`. -/
def config_bytes (config : Config) : Except String (List (List Nat)) := do
  let effect := effect_bytes config.effect
  let zone ← zone_bytes config.zone
  let effectPacket : List Nat := [0xec, 0x35, zone, 0x00, 0x00, effect]
  let colorPacket ← color_bytes config.zone config.color
  let commitPacket : List Nat := [0xec, 0x3f, 0x55]
  pure [effectPacket, colorPacket, commitPacket]

end AsusRogStrixX670EF

/-
Embedding of the older standalone tool in src/main.rs.  Its `Effect` enum has
only the five Gigabyte-supported variants (discriminants 0-4, read back with
`as u8`), and its `Zone` enum carries the 16-bit zone codes as discriminants
(read back with `as u16`).  Rust names the zone variants in upper case
(I/O, CPU, SID, CX, LED0, LED1); they are capitalized differently here.
-/
namespace Main

/-- `Effect` (src/main.rs:54-60): five variants with discriminants 0-4. -/
inductive Effect where
  | Off
  | Static
  | Pulse
  | Flash
  | Cycle
  deriving DecidableEq

/-- The value of `effect as u8` for src/main.rs's `Effect`. -/
def Effect.val : Effect → Nat
  | .Off => 0
  | .Static => 1
  | .Pulse => 2
  | .Flash => 3
  | .Cycle => 4

/-- `Zone` (src/main.rs:66-73): six variants carrying the 16-bit zone codes. -/
inductive Zone where
  | Io
  | Cpu
  | Sid
  | Cx
  | Led0
  | Led1
  deriving DecidableEq

/-- The value of `zone as u16` for src/main.rs's `Zone`. -/
def Zone.val : Zone → Nat
  | .Io => 0x2001
  | .Cpu => 0x2102
  | .Sid => 0x2308
  | .Cx => 0x2410
  | .Led0 => 0x2520
  | .Led1 => 0x2640

/-- `apply_packet` (src/main.rs:31-37): a 23-byte zero array with bytes 0-2
set to `0xcc`, `0x28`, `0xff`. -/
def apply_packet : List Nat :=
  (((List.replicate 23 0).set 0 0xcc).set 1 0x28).set 2 0xff

/-- `Brightness::as_bytes` (src/main.rs:124-130): identical formula to the
Gigabyte encoder module's `brightness_bytes`. -/
def brightnessAsBytes (b : Fin 256) : List Nat :=
  [0x5a * b.val % 65536 / 255 % 256]

/-- `Duration::as_bytes` (src/main.rs:156-165): identical formula to the
Gigabyte encoder module's `duration_bytes`. -/
def durationAsBytes (d : Fin 65536) : List Nat :=
  [d.val / 250 / 256 % 256, d.val / 250 % 256]

/-- `Config` (src/main.rs:182-192). -/
structure Config where
  zone : Zone
  effect : Effect
  max_brightness : Fin 256
  min_brightness : Fin 256
  color : Rgb
  fade_in_time : Fin 65536
  fade_out_time : Fin 65536
  hold_time : Fin 65536
  interactive : Bool

/-- `Config::as_bytes` (src/main.rs:240-287): the configuration packet, without
the apply bytes. -/
def Config.asBytes (c : Config) : List Nat :=
  [0xcc]
  ++ [c.zone.val / 256 % 256, c.zone.val % 256]
  ++ List.replicate 8 0
  ++ [c.effect.val]
  ++ brightnessAsBytes c.max_brightness
  ++ brightnessAsBytes c.min_brightness
  ++ [c.color.b.val, c.color.g.val, c.color.r.val]
  ++ [0]
  ++ List.replicate 3 0
  ++ [0]
  ++ durationAsBytes c.fade_in_time
  ++ durationAsBytes c.fade_out_time
  ++ durationAsBytes c.hold_time
  ++ List.replicate 3 0

/-- Model of the HID endpoint used by `write_config`: whether `HidApi::open`
succeeds, and whether the i-th `write` call issued on the opened device
succeeds. -/
structure Transport where
  openOk : Bool
  writeOk : Nat → Bool

/-- The terminal failures of `write_config` (src/main.rs:390-404), one per
`die!` site: the open failure and the two write failures, distinguished by
their distinct diagnostic messages. -/
inductive WriteError where
  | OpenFailed
  | WriteConfigFailed
  | WriteApplyFailed
  deriving DecidableEq

/-- The index, in the packet sequence `[config, apply]`, of the write whose
failure a `WriteError` reports (`none` for the open failure). -/
def WriteError.failIndex : WriteError → Option Nat
  | .OpenFailed => none
  | .WriteConfigFailed => some 0
  | .WriteApplyFailed => some 1

/-- `write_config` (src/main.rs:390-404): open the device, then write the
configuration packet and the apply packet in order, dying (process exit) at
the first failure.  The result records the packets actually passed to
`write`, in order, and the failure if any. -/
def write_config (t : Transport) (config : Config) :
    List (List Nat) × Option WriteError :=
  if !t.openOk then ([], some .OpenFailed)
  else if !t.writeOk 0 then ([config.asBytes], some .WriteConfigFailed)
  else if !t.writeOk 1 then ([config.asBytes, apply_packet], some .WriteApplyFailed)
  else ([config.asBytes, apply_packet], none)

end Main

/-- Byte `j` of packet `i` of an encoder result, when both exist. -/
def packetByte (r : Except String (List (List Nat))) (i j : Nat) : Option Nat :=
  match r with
  | .error _ => none
  | .ok ps => (ps.get? i).bind fun p => p.get? j

/-- The zone of the encoder layer that carries the same 16-bit code as a
src/main.rs zone. -/
def zoneCorr : Main.Zone → Zone
  | .Io => .Io
  | .Cpu => .Cpu
  | .Sid => .Audio
  | .Cx => .Chipset
  | .Led0 => .Header0
  | .Led1 => .Header1

/-- The effect of the encoder layer that carries the same code as a
src/main.rs effect. -/
def effectCorr : Main.Effect → Effect
  | .Off => .Off
  | .Static => .Static
  | .Pulse => .Pulse
  | .Flash => .Flash
  | .Cycle => .Cycle

/-- A src/main.rs configuration read as an encoder-layer configuration with
corresponding zone, effect, brightness, color and duration values. -/
def liftConfig (c : Main.Config) : Config :=
  { zone := zoneCorr c.zone
    effect := effectCorr c.effect
    max_brightness := c.max_brightness
    min_brightness := c.min_brightness
    color := c.color
    fade_in_time := c.fade_in_time
    fade_out_time := c.fade_out_time
    hold_time := c.hold_time }

/-
Helper lemmas shared by the claim theorems.
-/

/-- The u16 arithmetic in `brightness_bytes` never wraps: the byte emitted is
exactly `floor(90 * b / 255)`. -/
theorem brightness_bytes_eq (b : Fin 256) :
    GigabyteTrx40AorusMaster.brightness_bytes b = [90 * b.val / 255] := by
  have h := b.isLt
  have h1 : 90 * b.val % 65536 = 90 * b.val := Nat.mod_eq_of_lt (by omega)
  simp only [GigabyteTrx40AorusMaster.brightness_bytes, h1, List.cons.injEq, and_true]
  exact Nat.mod_eq_of_lt (by omega)

/-- The u8 cast in `duration_bytes` never truncates the high tick byte: the
two bytes emitted are the big-endian representation of `floor(ms / 250)`. -/
theorem duration_bytes_eq (d : Fin 65536) :
    GigabyteTrx40AorusMaster.duration_bytes d
      = [d.val / 250 / 256, d.val / 250 % 256] := by
  have h := d.isLt
  simp only [GigabyteTrx40AorusMaster.duration_bytes, List.cons.injEq, and_true]
  exact Nat.mod_eq_of_lt (by omega)

/-- Explicit form of the single buffer the Gigabyte encoder returns for an
accepted effect. -/
theorem gigabyte_config_bytes_ok (c : Config) (k : Nat)
    (hk : GigabyteTrx40AorusMaster.effect_bytes c.effect = .ok k) :
    GigabyteTrx40AorusMaster.config_bytes c = .ok
      [[0xcc,
        GigabyteTrx40AorusMaster.zone_bytes c.zone / 256 % 256,
        GigabyteTrx40AorusMaster.zone_bytes c.zone % 256,
        0, 0, 0, 0, 0, 0, 0, 0,
        k,
        90 * c.max_brightness.val / 255,
        90 * c.min_brightness.val / 255,
        c.color.b.val, c.color.g.val, c.color.r.val,
        0,
        0, 0, 0,
        0,
        c.fade_in_time.val / 250 / 256, c.fade_in_time.val / 250 % 256,
        c.fade_out_time.val / 250 / 256, c.fade_out_time.val / 250 % 256,
        c.hold_time.val / 250 / 256, c.hold_time.val / 250 % 256,
        0, 0, 0,
        0xcc, 0x28, 0xff,
        0, 0, 0, 0, 0, 0, 0, 0, 0, 0, 0, 0, 0, 0, 0, 0, 0, 0, 0, 0]] := by
  simp [GigabyteTrx40AorusMaster.config_bytes, hk, bind, Except.bind, pure,
    Except.pure, brightness_bytes_eq, duration_bytes_eq, List.replicate]

/-- Explicit form of the three packets the ASUS encoder returns for an
accepted zone. -/
theorem asus_config_bytes_ok (c : Config) (zb m : Nat)
    (hz : AsusRogStrixX670EF.zone_bytes c.zone = .ok zb)
    (hm : AsusRogStrixX670EF.zone_mask c.zone = .ok m) :
    AsusRogStrixX670EF.config_bytes c
      = .ok [[0xec, 0x35, zb, 0x00, 0x00, AsusRogStrixX670EF.effect_bytes c.effect],
             [0xec, 0x36, 0x00, m, 0x00,
              c.color.r.val, c.color.g.val, c.color.b.val,
              c.color.r.val, c.color.g.val, c.color.b.val,
              c.color.r.val, c.color.g.val, c.color.b.val,
              0, 0, 0, 0, 0, 0,
              c.color.r.val, c.color.g.val, c.color.b.val,
              c.color.r.val, c.color.g.val, c.color.b.val],
             [0xec, 0x3f, 0x55]] := by
  simp [AsusRogStrixX670EF.config_bytes, AsusRogStrixX670EF.color_bytes, hz, hm,
    bind, Except.bind, pure, Except.pure, List.replicate]


/-
Claim theorems.
-/

/-- C1: for the Gigabyte encoder, the apply bytes `0xCC 0x28 0xFF` plus 20
zeros are appended unconditionally — but to the SAME buffer as the
configuration bytes: on the accepted configuration below `config_bytes`
returns a packet sequence of length 1, a single 54-byte buffer whose final
23 bytes are the apply bytes, not a configuration packet followed by a
distinct apply packet. -/
theorem gigabyte_apply_packet_merged :
    (GigabyteTrx40AorusMaster.config_bytes
        { zone := .Io, effect := .Off, max_brightness := 0, min_brightness := 0,
          color := ⟨0, 0, 0⟩, fade_in_time := 0, fade_out_time := 0,
          hold_time := 0 }).map List.length = .ok 1
    ∧ GigabyteTrx40AorusMaster.config_bytes
        { zone := .Io, effect := .Off, max_brightness := 0, min_brightness := 0,
          color := ⟨0, 0, 0⟩, fade_in_time := 0, fade_out_time := 0,
          hold_time := 0 }
      = .ok [[0xcc, 0x20, 0x01, 0, 0, 0, 0, 0, 0, 0, 0, 0, 0, 0, 0, 0, 0, 0,
              0, 0, 0, 0, 0, 0, 0, 0, 0, 0, 0, 0, 0]
             ++ ([0xcc, 0x28, 0xff] ++ List.replicate 20 0)] :=
  ⟨rfl, rfl⟩

/-- C2 counterexample: the ASUS encoder maps the chase effect to code 9,
which is outside the claimed range 0-7; on an accepted configuration the
last byte of the effect packet is 9. -/
theorem asus_effect_range_counterexample :
    AsusRogStrixX670EF.effect_bytes Effect.Chase = 9
    ∧ packetByte (AsusRogStrixX670EF.config_bytes
        { zone := .Io, effect := .Chase, max_brightness := 255,
          min_brightness := 0, color := ⟨1, 2, 3⟩, fade_in_time := 100,
          fade_out_time := 100, hold_time := 100 }) 0 5 = some 9
    ∧ ¬(9 : Nat) ≤ 7 :=
  ⟨rfl, rfl, by omega⟩

/-- C2 amended: for the ASUS encoder, every one of the eight effects is
accepted (given a supported zone); each maps to an effect-code byte placed
as the last byte of the 6-byte effect packet, and the codes lie in the range
0-9 (off/static/pulse/flash/cycle/rainbow map to 0-5, chase-fade to 7 and
chase to 9). -/
theorem asus_effects_all_accepted (c : Config)
    (h : c.zone = Zone.Io ∨ c.zone = Zone.Header0) :
    ∃ zb cp, AsusRogStrixX670EF.zone_bytes c.zone = .ok zb
      ∧ AsusRogStrixX670EF.config_bytes c
          = .ok [[0xec, 0x35, zb, 0x00, 0x00, AsusRogStrixX670EF.effect_bytes c.effect],
                 cp, [0xec, 0x3f, 0x55]]
      ∧ ([0xec, 0x35, zb, 0x00, 0x00,
            AsusRogStrixX670EF.effect_bytes c.effect] : List Nat).getLast?
          = some (AsusRogStrixX670EF.effect_bytes c.effect)
      ∧ AsusRogStrixX670EF.effect_bytes c.effect ≤ 9 := by
  obtain ⟨z, e, mb, nb, col, f, g, ho⟩ := c
  rcases h with h | h <;> cases h <;>
    exact ⟨_, _, rfl, asus_config_bytes_ok _ _ _ rfl rfl, rfl,
      by cases e <;> simp [AsusRogStrixX670EF.effect_bytes]⟩

/-- C2 witness: instantiation at the I/O zone and the chase effect. -/
theorem asus_effects_all_accepted_witness :
    AsusRogStrixX670EF.effect_bytes Effect.Chase ≤ 9 := by
  obtain ⟨zb, cp, hz, hc, hl, hle⟩ :=
    asus_effects_all_accepted
      { zone := .Io, effect := .Chase, max_brightness := 255,
        min_brightness := 0, color := ⟨1, 2, 3⟩, fade_in_time := 100,
        fade_out_time := 100, hold_time := 100 } (Or.inl rfl)
  exact hle

/-- C3: `encode` fails exactly on an unsupported zone or effect — for the
ASUS encoder it succeeds iff the zone is Io or Header0 and otherwise
returns the `unsupported zone` error; for the Gigabyte encoder it succeeds
iff the effect is one of off/static/pulse/flash/cycle (codes 0-4) and
otherwise returns the `unsupported effect` error.  The quantification is
over ALL configurations, so brightness and duration values in their full
u8/u16 ranges never cause a failure. -/
theorem encode_error_iff (c : Config) :
    ((∃ ps, AsusRogStrixX670EF.config_bytes c = .ok ps) ↔
      (c.zone = Zone.Io ∨ c.zone = Zone.Header0))
    ∧ (¬(c.zone = Zone.Io ∨ c.zone = Zone.Header0) →
        AsusRogStrixX670EF.config_bytes c
          = .error ("unsupported zone: " ++ c.zone.debugStr))
    ∧ ((∃ ps, GigabyteTrx40AorusMaster.config_bytes c = .ok ps) ↔
        (c.effect = Effect.Off ∨ c.effect = Effect.Static
          ∨ c.effect = Effect.Pulse ∨ c.effect = Effect.Flash
          ∨ c.effect = Effect.Cycle))
    ∧ (¬(c.effect = Effect.Off ∨ c.effect = Effect.Static
          ∨ c.effect = Effect.Pulse ∨ c.effect = Effect.Flash
          ∨ c.effect = Effect.Cycle) →
        GigabyteTrx40AorusMaster.config_bytes c
          = .error ("unsupported effect: " ++ c.effect.debugStr)) := by
  obtain ⟨z, e, mb, nb, col, f, g, ho⟩ := c
  refine ⟨?_, ?_, ?_, ?_⟩ <;> cases z <;> cases e <;>
    simp [AsusRogStrixX670EF.config_bytes, AsusRogStrixX670EF.zone_bytes,
      AsusRogStrixX670EF.color_bytes, AsusRogStrixX670EF.zone_mask,
      GigabyteTrx40AorusMaster.config_bytes, GigabyteTrx40AorusMaster.effect_bytes,
      Zone.debugStr, Effect.debugStr, bind, Except.bind, pure, Except.pure]

/-- C3 witness: the ASUS encoder rejects the CPU zone with the
`unsupported zone` error, and the Gigabyte encoder rejects the rainbow
effect with the `unsupported effect` error. -/
theorem encode_error_iff_witness :
    AsusRogStrixX670EF.config_bytes
      { zone := .Cpu, effect := .Static, max_brightness := 255,
        min_brightness := 0, color := ⟨1, 2, 3⟩, fade_in_time := 100,
        fade_out_time := 100, hold_time := 100 }
      = .error ("unsupported zone: " ++ Zone.debugStr Zone.Cpu)
    ∧ GigabyteTrx40AorusMaster.config_bytes
      { zone := .Io, effect := .Rainbow, max_brightness := 255,
        min_brightness := 0, color := ⟨1, 2, 3⟩, fade_in_time := 100,
        fade_out_time := 100, hold_time := 100 }
      = .error ("unsupported effect: " ++ Effect.debugStr Effect.Rainbow) := by
  constructor
  · exact (encode_error_iff _).2.1 (by simp)
  · exact (encode_error_iff _).2.2.2 (by simp)

/-- C4: for the Gigabyte encoder the brightness byte written for input `b`
equals `floor(90 * b / 255)` with integer truncation for every `b` in
0..=255 (`0` at `b = 0`, `90` at `b = 255`), and in every accepted
configuration the byte at offset 12 is the scaled max brightness and the
byte at offset 13 the scaled min brightness. -/
theorem gigabyte_brightness_scaling :
    (∀ b : Fin 256, GigabyteTrx40AorusMaster.brightness_bytes b = [90 * b.val / 255])
    ∧ GigabyteTrx40AorusMaster.brightness_bytes 0 = [0]
    ∧ GigabyteTrx40AorusMaster.brightness_bytes 255 = [90]
    ∧ (∀ (c : Config) (k : Nat),
        GigabyteTrx40AorusMaster.effect_bytes c.effect = .ok k →
          packetByte (GigabyteTrx40AorusMaster.config_bytes c) 0 12
              = some (90 * c.max_brightness.val / 255)
            ∧ packetByte (GigabyteTrx40AorusMaster.config_bytes c) 0 13
              = some (90 * c.min_brightness.val / 255)) := by
  refine ⟨brightness_bytes_eq, rfl, rfl, ?_⟩
  intro c k hk
  rw [gigabyte_config_bytes_ok c k hk]
  exact ⟨rfl, rfl⟩

/-- C4 witness: at max brightness 200 and min brightness 17 the packet holds
`floor(90*200/255) = 70` and `floor(90*17/255) = 6`. -/
theorem gigabyte_brightness_scaling_witness :
    packetByte (GigabyteTrx40AorusMaster.config_bytes
      { zone := .Cpu, effect := .Static, max_brightness := 200,
        min_brightness := 17, color := ⟨1, 2, 3⟩, fade_in_time := 100,
        fade_out_time := 100, hold_time := 100 }) 0 12 = some 70
    ∧ packetByte (GigabyteTrx40AorusMaster.config_bytes
      { zone := .Cpu, effect := .Static, max_brightness := 200,
        min_brightness := 17, color := ⟨1, 2, 3⟩, fade_in_time := 100,
        fade_out_time := 100, hold_time := 100 }) 0 13 = some 6 := by
  have h := gigabyte_brightness_scaling.2.2.2
    { zone := .Cpu, effect := .Static, max_brightness := 200,
      min_brightness := 17, color := ⟨1, 2, 3⟩, fade_in_time := 100,
      fade_out_time := 100, hold_time := 100 } 1 rfl
  exact ⟨h.1, h.2⟩

/-- C5: for the Gigabyte encoder each duration field is encoded as the
16-bit big-endian representation of `floor(ms / 250)`, truncating toward
zero, for every 16-bit millisecond input; the tick counts at 0, 249, 250
and 65535 milliseconds are 0, 0, 1 and 262. -/
theorem gigabyte_duration_ticks :
    (∀ d : Fin 65536,
      GigabyteTrx40AorusMaster.duration_bytes d
        = [d.val / 250 / 256, d.val / 250 % 256]
      ∧ 256 * (d.val / 250 / 256) + d.val / 250 % 256 = d.val / 250)
    ∧ GigabyteTrx40AorusMaster.duration_bytes 0 = [0 / 256, 0 % 256]
    ∧ GigabyteTrx40AorusMaster.duration_bytes 249 = [0 / 256, 0 % 256]
    ∧ GigabyteTrx40AorusMaster.duration_bytes 250 = [1 / 256, 1 % 256]
    ∧ GigabyteTrx40AorusMaster.duration_bytes 65535 = [262 / 256, 262 % 256] :=
  ⟨fun d => ⟨duration_bytes_eq d, by omega⟩, rfl, rfl, rfl, rfl⟩

/-- C6: in every accepted Gigabyte configuration packet byte 0 is `0xCC`;
for the CPU zone bytes 1-2 are the big-endian zone code `0x2102`; for the
pulse effect the effect byte (offset 11) is `0x02`; and offsets 14-16 hold
the color channels in blue-green-red order. -/
theorem gigabyte_packet_layout (c : Config) (k : Nat)
    (hk : GigabyteTrx40AorusMaster.effect_bytes c.effect = .ok k) :
    packetByte (GigabyteTrx40AorusMaster.config_bytes c) 0 0 = some 0xcc
    ∧ (c.zone = Zone.Cpu →
        packetByte (GigabyteTrx40AorusMaster.config_bytes c) 0 1 = some 0x21
        ∧ packetByte (GigabyteTrx40AorusMaster.config_bytes c) 0 2 = some 0x02)
    ∧ (c.effect = Effect.Pulse →
        packetByte (GigabyteTrx40AorusMaster.config_bytes c) 0 11 = some 0x02)
    ∧ packetByte (GigabyteTrx40AorusMaster.config_bytes c) 0 14 = some c.color.b.val
    ∧ packetByte (GigabyteTrx40AorusMaster.config_bytes c) 0 15 = some c.color.g.val
    ∧ packetByte (GigabyteTrx40AorusMaster.config_bytes c) 0 16 = some c.color.r.val := by
  rw [gigabyte_config_bytes_ok c k hk]
  refine ⟨rfl, ?_, ?_, rfl, rfl, rfl⟩
  · intro hz
    rw [hz]
    exact ⟨rfl, rfl⟩
  · intro he
    rw [he] at hk
    simp [GigabyteTrx40AorusMaster.effect_bytes] at hk
    rw [← hk]
    rfl

/-- C6 witness: CPU zone, pulse effect, color `{r:0x12, g:0x34, b:0x56}` —
bytes 1-2 are `0x21 0x02`, byte 11 is `0x02`, bytes 14-16 are
`0x56 0x34 0x12`. -/
theorem gigabyte_packet_layout_witness :
    packetByte (GigabyteTrx40AorusMaster.config_bytes
      { zone := .Cpu, effect := .Pulse, max_brightness := 255,
        min_brightness := 0, color := ⟨0x12, 0x34, 0x56⟩, fade_in_time := 100,
        fade_out_time := 100, hold_time := 100 }) 0 1 = some 0x21
    ∧ packetByte (GigabyteTrx40AorusMaster.config_bytes
      { zone := .Cpu, effect := .Pulse, max_brightness := 255,
        min_brightness := 0, color := ⟨0x12, 0x34, 0x56⟩, fade_in_time := 100,
        fade_out_time := 100, hold_time := 100 }) 0 11 = some 0x02
    ∧ packetByte (GigabyteTrx40AorusMaster.config_bytes
      { zone := .Cpu, effect := .Pulse, max_brightness := 255,
        min_brightness := 0, color := ⟨0x12, 0x34, 0x56⟩, fade_in_time := 100,
        fade_out_time := 100, hold_time := 100 }) 0 14 = some 0x56 := by
  have h := gigabyte_packet_layout
    { zone := .Cpu, effect := .Pulse, max_brightness := 255,
      min_brightness := 0, color := ⟨0x12, 0x34, 0x56⟩, fade_in_time := 100,
      fade_out_time := 100, hold_time := 100 } 2 rfl
  exact ⟨(h.2.1 rfl).1, h.2.2.1 rfl, h.2.2.2.1⟩

/-- C7: for the ASUS encoder, an accepted configuration with the I/O zone
and static effect yields exactly three packets in the order effect, color,
commit, the first being `[0xEC,0x35,0x00,0x00,0x00,0x01]` and the third
`[0xEC,0x3F,0x55]`; and for EVERY accepted configuration the result has
exactly three packets with the commit packet as its final element. -/
theorem asus_three_packets :
    (∀ c : Config, c.zone = Zone.Io → c.effect = Effect.Static →
      ∃ cp, AsusRogStrixX670EF.config_bytes c
          = .ok [[0xec, 0x35, 0x00, 0x00, 0x00, 0x01], cp, [0xec, 0x3f, 0x55]])
    ∧ (∀ (c : Config) (ps : List (List Nat)),
        AsusRogStrixX670EF.config_bytes c = .ok ps →
          ps.length = 3 ∧ ps.getLast? = some [0xec, 0x3f, 0x55]) := by
  constructor
  · intro c hz he
    have h := asus_config_bytes_ok c 0 7 (by rw [hz]; rfl) (by rw [hz]; rfl)
    rw [he] at h
    exact ⟨_, h⟩
  · intro c ps h
    obtain ⟨z, e, mb, nb, col, f, g, ho⟩ := c
    cases z
    case Io =>
      rw [asus_config_bytes_ok ⟨.Io, e, mb, nb, col, f, g, ho⟩ 0 7 rfl rfl] at h
      injection h with h'
      rw [← h']
      exact ⟨rfl, rfl⟩
    case Header0 =>
      rw [asus_config_bytes_ok ⟨.Header0, e, mb, nb, col, f, g, ho⟩ 1 0x60 rfl rfl] at h
      injection h with h'
      rw [← h']
      exact ⟨rfl, rfl⟩
    all_goals
      simp [AsusRogStrixX670EF.config_bytes, AsusRogStrixX670EF.zone_bytes,
        bind, Except.bind] at h

/-- C7 witness: instantiation at the I/O zone, static effect, color
`0xFF0000`, and at a cycle-effect configuration for the final-commit part. -/
theorem asus_three_packets_witness :
    (∃ cp, AsusRogStrixX670EF.config_bytes
      { zone := .Io, effect := .Static, max_brightness := 255,
        min_brightness := 0, color := ⟨0xff, 0, 0⟩, fade_in_time := 100,
        fade_out_time := 100, hold_time := 100 }
      = .ok [[0xec, 0x35, 0x00, 0x00, 0x00, 0x01], cp, [0xec, 0x3f, 0x55]])
    ∧ ([[0xec, 0x35, 0x01, 0x00, 0x00, 0x04],
        [0xec, 0x36, 0x00, 0x60, 0x00, 5, 6, 7, 5, 6, 7, 5, 6, 7,
         0, 0, 0, 0, 0, 0, 5, 6, 7, 5, 6, 7],
        [0xec, 0x3f, 0x55]] : List (List Nat)).length = 3 := by
  constructor
  · exact asus_three_packets.1
      { zone := .Io, effect := .Static, max_brightness := 255,
        min_brightness := 0, color := ⟨0xff, 0, 0⟩, fade_in_time := 100,
        fade_out_time := 100, hold_time := 100 } rfl rfl
  · exact (asus_three_packets.2
      { zone := .Header0, effect := .Cycle, max_brightness := 255,
        min_brightness := 0, color := ⟨5, 6, 7⟩, fade_in_time := 100,
        fade_out_time := 100, hold_time := 100 } _ rfl).1

/-- C8: the orchestrator `write_config` is fail-fast against the HID
endpoint: if opening the device fails, no write call is issued; the packet
sequence it writes is `[configuration, apply]`; a failure of the write at
index `i` leaves every packet past index `i` unattempted, and the reported
error identifies index `i` (each of the two write failures produces its own
distinct diagnostic); at most two packets are ever written. -/
theorem write_config_fail_fast (t : Main.Transport) (c : Main.Config) :
    (t.openOk = false →
      Main.write_config t c = ([], some Main.WriteError.OpenFailed))
    ∧ (t.openOk = true → t.writeOk 0 = false →
      Main.write_config t c = ([c.asBytes], some Main.WriteError.WriteConfigFailed)
      ∧ Main.WriteError.failIndex Main.WriteError.WriteConfigFailed = some 0)
    ∧ (t.openOk = true → t.writeOk 0 = true → t.writeOk 1 = false →
      Main.write_config t c
        = ([c.asBytes, Main.apply_packet], some Main.WriteError.WriteApplyFailed)
      ∧ Main.WriteError.failIndex Main.WriteError.WriteApplyFailed = some 1)
    ∧ (t.openOk = true → t.writeOk 0 = true → t.writeOk 1 = true →
      Main.write_config t c = ([c.asBytes, Main.apply_packet], none))
    ∧ (Main.write_config t c).1.length ≤ 2 := by
  refine ⟨?_, ?_, ?_, ?_, ?_⟩
  · intro h1
    simp [Main.write_config, h1]
  · intro h1 h2
    exact ⟨by simp [Main.write_config, h1, h2], rfl⟩
  · intro h1 h2 h3
    exact ⟨by simp [Main.write_config, h1, h2, h3], rfl⟩
  · intro h1 h2 h3
    simp [Main.write_config, h1, h2, h3]
  · cases h1 : t.openOk <;> cases h2 : t.writeOk 0 <;> cases h3 : t.writeOk 1 <;>
      simp [Main.write_config, h1, h2, h3]

/-- C8 witness: with a transport whose open succeeds, whose first write
succeeds and whose second write fails, the orchestrator passes exactly the
configuration packet and the apply packet to `write` and reports the
apply-write failure (index 1), never attempting a third packet. -/
theorem write_config_fail_fast_witness :
    Main.write_config ⟨true, fun i => decide (i = 0)⟩
      { zone := .Cpu, effect := .Static, max_brightness := 255,
        min_brightness := 0, color := ⟨1, 2, 3⟩, fade_in_time := 100,
        fade_out_time := 100, hold_time := 100, interactive := false }
      = ([Main.Config.asBytes
            { zone := .Cpu, effect := .Static, max_brightness := 255,
              min_brightness := 0, color := ⟨1, 2, 3⟩, fade_in_time := 100,
              fade_out_time := 100, hold_time := 100, interactive := false },
          Main.apply_packet], some Main.WriteError.WriteApplyFailed)
    ∧ Main.WriteError.failIndex Main.WriteError.WriteApplyFailed = some 1 :=
  (write_config_fail_fast ⟨true, fun i => decide (i = 0)⟩
      { zone := .Cpu, effect := .Static, max_brightness := 255,
        min_brightness := 0, color := ⟨1, 2, 3⟩, fade_in_time := 100,
        fade_out_time := 100, hold_time := 100, interactive := false }).2.2.1
    rfl rfl rfl

/-- C9: the ASUS encoder ignores the brightness and duration fields — any
two configurations agreeing on zone, effect and color produce identical
results, whatever their max/min brightness and fade-in/fade-out/hold
times. -/
theorem asus_ignores_brightness_duration (c₁ c₂ : Config)
    (hz : c₁.zone = c₂.zone) (he : c₁.effect = c₂.effect)
    (hc : c₁.color = c₂.color) :
    AsusRogStrixX670EF.config_bytes c₁ = AsusRogStrixX670EF.config_bytes c₂ := by
  obtain ⟨z₁, e₁, mb₁, nb₁, col₁, f₁, g₁, h₁⟩ := c₁
  obtain ⟨z₂, e₂, mb₂, nb₂, col₂, f₂, g₂, h₂⟩ := c₂
  dsimp at hz he hc
  subst hz
  subst he
  subst hc
  rfl

/-- C9 witness: two configurations with extreme opposite brightness and
duration values but the same zone, effect and color encode identically. -/
theorem asus_ignores_brightness_duration_witness :
    AsusRogStrixX670EF.config_bytes
      { zone := .Io, effect := .Pulse, max_brightness := 255,
        min_brightness := 255, color := ⟨9, 8, 7⟩, fade_in_time := 65535,
        fade_out_time := 65535, hold_time := 65535 }
      = AsusRogStrixX670EF.config_bytes
      { zone := .Io, effect := .Pulse, max_brightness := 0,
        min_brightness := 0, color := ⟨9, 8, 7⟩, fade_in_time := 0,
        fade_out_time := 0, hold_time := 0 } :=
  asus_ignores_brightness_duration _ _ rfl rfl rfl

/-- C10: the two independent Gigabyte implementations agree — for every
src/main.rs configuration (whose effect type is exactly the five codes both
accept), the corresponding encoder-layer zone carries the same 16-bit code,
the corresponding effect is accepted with the same code, and the single
packet returned by the encoder's `config_bytes` equals `Config::as_bytes`
concatenated with the constant `apply_packet()`. -/
theorem gigabyte_implementations_agree (c : Main.Config) :
    GigabyteTrx40AorusMaster.zone_bytes (zoneCorr c.zone) = c.zone.val
    ∧ GigabyteTrx40AorusMaster.effect_bytes (effectCorr c.effect)
        = .ok c.effect.val
    ∧ GigabyteTrx40AorusMaster.config_bytes (liftConfig c)
        = .ok [c.asBytes ++ Main.apply_packet] := by
  obtain ⟨z, e, mb, nb, col, f, g, h, i⟩ := c
  refine ⟨?_, ?_, ?_⟩
  · cases z <;> rfl
  · cases e <;> rfl
  · cases z <;> cases e <;> rfl
